import Mathlib

/-!
Verification of the provider-dispatch and normalization layer of the
Multi-LLM chat/translation platform (`server.js`, plus the translator UI
controller `translate-ui.js`).

The JavaScript source is shallowly embedded: each Express handler becomes a
pure Lean function of the request fields together with an `Oracle` value that
stands for the single outbound provider call the handler may perform (whether
the HTTP/SDK call succeeded, and the string found at the provider-specific
text field path of the response body, `none` when the field is absent).
Each handler returns its result together with the list of outbound calls it
issued, so "no network call was attempted" is the statement that this list is
empty.  Wall-clock fields of the JSON responses (`executionTime`,
`timestamp`) are environment-dependent and are not modelled.  JavaScript
numbers are modelled as `ℚ`, JavaScript strings as Lean `String`
(character-for-character; the inputs of interest are ASCII).
-/

namespace MultiLLM

/-- The seven provider tags of `AVAILABLE_MODELS` in `server.js`. -/
inductive ProviderId
  | openai | anthropic | deepseek | perplexity | microsoft | adobe | canva
deriving DecidableEq, Repr

/-- The string form of a provider tag, as interpolated into messages. -/
def providerName : ProviderId → String
  | .openai => "openai"
  | .anthropic => "anthropic"
  | .deepseek => "deepseek"
  | .perplexity => "perplexity"
  | .microsoft => "microsoft"
  | .adobe => "adobe"
  | .canva => "canva"

/-- Which credentials were present at startup: the `clients` table of
`server.js` restricted to the seven model providers (`true` iff the entry is
non-null). -/
structure Clients where
  openai : Bool
  anthropic : Bool
  deepseek : Bool
  perplexity : Bool
  microsoft : Bool
  adobe : Bool
  canva : Bool
deriving DecidableEq, Repr

/-- `isProviderAvailable` of `server.js`: `clients[provider] !== null`. -/
def isProviderAvailable (cl : Clients) : ProviderId → Bool
  | .openai => cl.openai
  | .anthropic => cl.anthropic
  | .deepseek => cl.deepseek
  | .perplexity => cl.perplexity
  | .microsoft => cl.microsoft
  | .adobe => cl.adobe
  | .canva => cl.canva

/-- The `AVAILABLE_MODELS` table of `server.js`: model id, display name,
in object-literal order. -/
def AVAILABLE_MODELS : ProviderId → List (String × String)
  | .openai =>
      [("gpt-4", "GPT-4"), ("gpt-4-turbo", "GPT-4 Turbo"),
       ("gpt-3.5-turbo", "GPT-3.5 Turbo")]
  | .anthropic =>
      [("claude-3-5-sonnet-20241022", "Claude-3.5 Sonnet"),
       ("claude-3-haiku-20240307", "Claude-3 Haiku"),
       ("claude-3-sonnet-20240229", "Claude-3 Sonnet")]
  | .deepseek =>
      [("deepseek-chat", "Deepseek Chat"), ("deepseek-coder", "Deepseek Coder")]
  | .perplexity =>
      [("sonar", "Perplexity Sonar"), ("sonar-pro", "Perplexity Sonar Pro")]
  | .microsoft => [("gpt-4o-mini", "Azure OpenAI GPT-4o Mini")]
  | .adobe => [("firefly-image", "Adobe Firefly Image")]
  | .canva => [("design", "Canva Design")]

/-- The `SUPPORTED_LANGUAGES` table of `server.js`: code, English name, in
object-literal order. -/
def SUPPORTED_LANGUAGES : List (String × String) :=
  [("en", "English"), ("es", "Spanish"), ("fr", "French"), ("de", "German"),
   ("it", "Italian"), ("pt", "Portuguese"), ("ru", "Russian"),
   ("ja", "Japanese"), ("ko", "Korean"), ("zh", "Chinese (Simplified)"),
   ("zh-tw", "Chinese (Traditional)"), ("ar", "Arabic"), ("hi", "Hindi"),
   ("nl", "Dutch"), ("sv", "Swedish"), ("da", "Danish"), ("no", "Norwegian"),
   ("fi", "Finnish"), ("pl", "Polish"), ("tr", "Turkish"), ("th", "Thai"),
   ("vi", "Vietnamese"), ("id", "Indonesian"), ("ms", "Malay"),
   ("tl", "Filipino"), ("he", "Hebrew"), ("fa", "Persian"), ("ur", "Urdu"),
   ("bn", "Bengali"), ("gu", "Gujarati"), ("ta", "Tamil"), ("te", "Telugu"),
   ("kn", "Kannada"), ("ml", "Malayalam"), ("mr", "Marathi"),
   ("pa", "Punjabi")]

/-- One role/content message, as sent to every provider. -/
structure ChatTurn where
  role : String
  content : String
deriving DecidableEq, Repr

/-- `estimateTokens` of `server.js`: `Math.ceil(text.length / 4)`. -/
def estimateTokens (text : String) : Nat := (text.length + 3) / 4

/-- The `costPerToken` table inside `calculateCost` of `server.js`,
object-literal order, rates as exact rationals. -/
def costPerTokenTable : List (String × ℚ) :=
  [("gpt-4", 3 / 100000), ("gpt-4-turbo", 1 / 100000),
   ("gpt-3.5-turbo", 2 / 1000000),
   ("claude-3-5-sonnet-20241022", 15 / 1000000),
   ("claude-3-haiku-20240307", 25 / 100000000),
   ("claude-3-sonnet-20240229", 3 / 1000000),
   ("deepseek-chat", 14 / 10000000), ("deepseek-coder", 14 / 10000000)]

/-- `costPerToken[model] || 0.000002`: the table lookup with the default
rate for an unrecognized model id. -/
def costPerToken (model : String) : ℚ :=
  match costPerTokenTable.find? (fun e => e.1 == model) with
  | some e => e.2
  | none => 2 / 1000000

/-- `calculateCost` of `server.js`: `tokens * (costPerToken[model] || 2e-6)`. -/
def calculateCost (tokens : Nat) (model : String) : ℚ :=
  tokens * costPerToken model

/-- `parseFloat(cost.toFixed(6))`: rounding to 6 decimal places for display. -/
def roundTo6 (q : ℚ) : ℚ := ((round (q * 1000000) : ℤ) : ℚ) / 1000000

/-- JavaScript `v || d` where `v` is a possibly-absent string: the default is
taken when the value is missing or the empty string (both falsy). -/
def jsOr (v : Option String) (d : String) : String :=
  match v with
  | some s => if s = "" then d else s
  | none => d

/-- ASCII `toLowerCase`, character by character (the language names and
detection answers of interest are ASCII). -/
def lowerChar (c : Char) : Char :=
  if 'A' ≤ c ∧ c ≤ 'Z' then Char.ofNat (c.toNat + 32) else c

/-- JavaScript `s.toLowerCase()` on ASCII strings. -/
def lowerStr (s : String) : String := ⟨s.data.map lowerChar⟩

/-- JavaScript whitespace test used by `trim`, restricted to the common
ASCII whitespace characters. -/
def isWhite (c : Char) : Bool :=
  c = ' ' ∨ c = '\t' ∨ c = '\n' ∨ c = '\r'

/-- JavaScript `s.trim()`: whitespace removed from both ends. -/
def jsTrim (s : String) : String :=
  ⟨((s.data.dropWhile isWhite).reverse.dropWhile isWhite).reverse⟩

/-- The outcome of the single outbound provider call a handler may make:
`ok` is whether the HTTP/SDK call succeeded (`response.ok`, no SDK throw),
`content` the string at the provider-specific text field path of the
response body (`none` when a link of the path is absent, e.g. an empty
`choices` array), and `errText` the upstream error text used in thrown
messages when `ok` is false. -/
structure Oracle where
  ok : Bool
  content : Option String
  errText : String

/-- A record of one outbound provider call: which provider was called and
the role/content message array sent to it. -/
structure SentCall where
  provider : ProviderId
  messages : List ChatTurn
deriving DecidableEq, Repr

/-- JavaScript `history.slice(-10)`: the last (at most) 10 elements, order
preserved. -/
def lastTen (l : List ChatTurn) : List ChatTurn := l.drop (l.length - 10)

/-- The message array each chat branch of `app.post('/api/chat')` builds:
`[...history.slice(-10), {role:'user', content: message}]`, with the
anthropic branch additionally filtering out system-role turns from the
sliced history; `none` for adobe/canva, whose dispatch throws
`Unsupported provider` before building any messages. -/
def buildChatMessages (p : ProviderId) (history : List ChatTurn)
    (message : String) : Option (List ChatTurn) :=
  match p with
  | .openai | .deepseek | .perplexity | .microsoft =>
      some (lastTen history ++ [⟨"user", message⟩])
  | .anthropic =>
      some ((lastTen history).filter (fun m => m.role != "system")
        ++ [⟨"user", message⟩])
  | .adobe | .canva => none

/-- Text extraction of the chat branches.  openai reads
`completion.choices[0].message.content` and anthropic
`completion.content[0].text` with unchecked member access — an absent field
throws a TypeError.  deepseek, perplexity and microsoft use optional
chaining with a `|| '<...> response unavailable'` placeholder. -/
def chatExtract (p : ProviderId) (content : Option String) :
    Except String String :=
  match p with
  | .openai | .anthropic =>
      match content with
      | some s => .ok s
      | none => .error "TypeError: cannot read properties of undefined"
  | .deepseek => .ok (jsOr content "Deepseek response unavailable")
  | .perplexity => .ok (jsOr content "Perplexity response unavailable")
  | .microsoft => .ok (jsOr content "Azure response unavailable")
  | .adobe => .error "Unsupported provider: adobe"
  | .canva => .error "Unsupported provider: canva"

/-- The error message thrown when the outbound chat call itself fails
(non-2xx raw HTTP response, or an SDK exception whose message is the
upstream's own text). -/
def chatFailMessage (p : ProviderId) (errText : String) : String :=
  match p with
  | .openai | .anthropic => errText
  | .deepseek => "Deepseek API error: " ++ errText
  | .perplexity => "Perplexity API error"
  | .microsoft => "Azure OpenAI error"
  | .adobe => "Unsupported provider: adobe"
  | .canva => "Unsupported provider: canva"

/-- The dispatch step of `app.post('/api/chat')`: build the provider's
message array, issue the call, extract the text.  The returned list records
the outbound calls issued (empty for adobe/canva, which throw before
calling out). -/
def chatDispatch (o : Oracle) (p : ProviderId) (message : String)
    (history : List ChatTurn) : Except String String × List SentCall :=
  match buildChatMessages p history message with
  | none => (.error ("Unsupported provider: " ++ providerName p), [])
  | some msgs =>
      if o.ok then (chatExtract p o.content, [⟨p, msgs⟩])
      else (.error (chatFailMessage p o.errText), [⟨p, msgs⟩])

/-- The validation prologue of `app.post('/api/chat')`:
`!provider || !model || !message` (empty string is falsy; no trimming),
then `isProviderAvailable`, then `AVAILABLE_MODELS[provider]?.[model]`.
Returns the 400 error produced, or `none` when validation passes.  The
provider field is an enumerated tag here, so the absent-provider case of
the first check does not arise. -/
def chatValidate (cl : Clients) (p : ProviderId) (model message : String) :
    Option (Nat × String) :=
  if model = "" ∨ message = "" then some (400, "Missing required parameters")
  else if isProviderAvailable cl p = false then
    some (400, "Provider " ++ providerName p ++ " is not available")
  else if ((AVAILABLE_MODELS p).find? (fun e => e.1 == model)).isNone then
    some (400, "Model " ++ model ++ " not available for " ++ providerName p)
  else none

/-- The success body of `app.post('/api/chat')` (wall-clock fields
omitted). -/
structure ChatSuccess where
  response : String
  provider : ProviderId
  model : String
  tokensUsed : Nat
  cost : ℚ
deriving DecidableEq, Repr

/-- `app.post('/api/chat')` of `server.js` as a function of the request and
the upstream oracle: the HTTP status/error or the success body, together
with the outbound calls issued. -/
def chatHandler (cl : Clients) (o : Oracle) (p : ProviderId)
    (model message : String) (history : List ChatTurn) :
    Except (Nat × String) ChatSuccess × List SentCall :=
  match chatValidate cl p model message with
  | some err => (.error err, [])
  | none =>
      match chatDispatch o p message history with
      | (.error e, calls) => (.error (500, e), calls)
      | (.ok text, calls) =>
          let tokens := estimateTokens (message ++ text)
          (.ok ⟨text, p, model, tokens, roundTo6 (calculateCost tokens model)⟩,
           calls)

/-- `SUPPORTED_LANGUAGES[code]` as an optional lookup. -/
def languageLookup (code : String) : Option String :=
  (SUPPORTED_LANGUAGES.find? (fun e => e.1 == code)).map (fun e => e.2)

/-- `SUPPORTED_LANGUAGES[sourceLang] || 'auto-detect'` of the translate
handler; `sourceLang` may be absent from the request body. -/
def resolveSourceLanguage (sourceLang : Option String) : String :=
  match sourceLang with
  | some sl => jsOr (languageLookup sl) "auto-detect"
  | none => "auto-detect"

/-- `SUPPORTED_LANGUAGES[targetLang] || targetLang` of the translate
handler. -/
def resolveTargetLanguage (targetLang : String) : String :=
  jsOr (languageLookup targetLang) targetLang

/-- The `translationPrompt` string of `app.post('/api/translate')`:
for `sourceLang === 'auto'` the instruction names only the target language,
otherwise both languages; the text to translate is embedded in double
quotes in both shapes. -/
def translationPrompt (sourceLang : Option String) (text targetLang : String) :
    String :=
  if sourceLang = some "auto" then
    "Translate the following text to " ++ resolveTargetLanguage targetLang
      ++ ". Only provide the translation, no explanations:\n\n"
      ++ ("\"" ++ text ++ "\"")
  else
    "Translate the following text from " ++ resolveSourceLanguage sourceLang
      ++ " to " ++ resolveTargetLanguage targetLang
      ++ ". Only provide the translation, no explanations:\n\n"
      ++ ("\"" ++ text ++ "\"")

/-- Text extraction of the translate branches: openai/anthropic read the
field with unchecked access and `.trim()` it; deepseek goes through
`callDeepseekChat` (placeholder on a missing field, no trim);
perplexity/microsoft use `?.trim() || ''` (empty string, not a placeholder,
on a missing field). -/
def translateExtract (p : ProviderId) (content : Option String) :
    Except String String :=
  match p with
  | .openai | .anthropic =>
      match content with
      | some s => .ok (jsTrim s)
      | none => .error "TypeError: cannot read properties of undefined"
  | .deepseek => .ok (jsOr content "Deepseek response unavailable")
  | .perplexity | .microsoft => .ok (jsOr (content.map jsTrim) "")
  | .adobe => .error "Unsupported provider: adobe"
  | .canva => .error "Unsupported provider: canva"

/-- The dispatch step of `app.post('/api/translate')`: every reachable
branch sends the single-turn message array
`[{role:'user', content: prompt}]` (deepseek via
`callDeepseekChat(model, prompt, [])`, whose `[].slice(-10)` prefix is
empty); adobe/canva throw `Unsupported provider` without calling out. -/
def translateDispatch (o : Oracle) (p : ProviderId) (prompt : String) :
    Except String String × List SentCall :=
  match p with
  | .adobe | .canva =>
      (.error ("Unsupported provider: " ++ providerName p), [])
  | _ =>
      if o.ok then (translateExtract p o.content, [⟨p, [⟨"user", prompt⟩]⟩])
      else (.error (chatFailMessage p o.errText), [⟨p, [⟨"user", prompt⟩]⟩])

/-- The model of the JavaScript `replace(/^["']|["']$/g, '')` applied to the
extracted translation: scan the string position by position; at position 0
the alternative `^["']` can match a quote character, at the final position
the alternative `["']$` can; every match is one character long and is
replaced by nothing. -/
def stripScan (len : Nat) : Nat → List Char → List Char
  | _, [] => []
  | i, c :: rest =>
      if (i = 0 ∧ (c = '"' ∨ c = '\'')) ∨ ((c = '"' ∨ c = '\'') ∧ i + 1 = len)
      then stripScan len (i + 1) rest
      else c :: stripScan len (i + 1) rest

/-- `translatedText.replace(/^["']|["']$/g, '')` of
`app.post('/api/translate')`. -/
def jsReplaceQuotes (s : String) : String :=
  ⟨stripScan s.data.length 0 s.data⟩

/-- The validation prologue of `app.post('/api/translate')`:
`!provider || !model || !text || !targetLang` (empty string is falsy; no
trimming), then availability, then the model catalog.  There is no
comparison of `sourceLang` with `targetLang`. -/
def translateValidate (cl : Clients) (p : ProviderId)
    (model text targetLang : String) : Option (Nat × String) :=
  if model = "" ∨ text = "" ∨ targetLang = "" then
    some (400, "Missing required parameters")
  else if isProviderAvailable cl p = false then
    some (400, "Provider " ++ providerName p ++ " is not available")
  else if ((AVAILABLE_MODELS p).find? (fun e => e.1 == model)).isNone then
    some (400, "Model " ++ model ++ " not available for " ++ providerName p)
  else none

/-- The success body of `app.post('/api/translate')` (wall-clock fields
omitted). -/
structure TranslateSuccess where
  translatedText : String
  sourceLang : Option String
  targetLang : String
  provider : ProviderId
  model : String
  tokensUsed : Nat
  cost : ℚ
deriving DecidableEq, Repr

/-- `app.post('/api/translate')` of `server.js` as a function of the
request and the upstream oracle. -/
def translateHandler (cl : Clients) (o : Oracle) (p : ProviderId)
    (model text : String) (sourceLang : Option String) (targetLang : String) :
    Except (Nat × String) TranslateSuccess × List SentCall :=
  match translateValidate cl p model text targetLang with
  | some err => (.error err, [])
  | none =>
      match translateDispatch o p (translationPrompt sourceLang text targetLang) with
      | (.error e, calls) => (.error (500, e), calls)
      | (.ok raw, calls) =>
          let translated := jsReplaceQuotes raw
          let tokens := estimateTokens (text ++ translated)
          (.ok ⟨translated,
                if sourceLang = some "auto" then some "auto-detected"
                else sourceLang,
                targetLang, p, model, tokens,
                roundTo6 (calculateCost tokens model)⟩,
           calls)

/-- The `detectionPrompt` string of `app.post('/api/detect-language')`. -/
def detectionPrompt (text : String) : String :=
  "Detect the language of the following text and respond with only the "
    ++ "language name in English (e.g., \"English\", \"Spanish\", \"French\", "
    ++ "etc.):\n\n\"" ++ text ++ "\""

/-- Text extraction of the detect-language branches (openai/anthropic:
unchecked access plus `.trim()`; deepseek: `callDeepseekChat` placeholder;
perplexity: `?.trim() || ''`). -/
def detectExtract (p : ProviderId) (content : Option String) :
    Except String String :=
  match p with
  | .openai | .anthropic =>
      match content with
      | some s => .ok (jsTrim s)
      | none => .error "TypeError: cannot read properties of undefined"
  | .deepseek => .ok (jsOr content "Deepseek response unavailable")
  | _ => .ok (jsOr (content.map jsTrim) "")

/-- The `langCode` resolution of `app.post('/api/detect-language')`:
`Object.keys(SUPPORTED_LANGUAGES).find(code =>
SUPPORTED_LANGUAGES[code].toLowerCase() === detectedLanguage.toLowerCase())`
followed by `langCode || 'unknown'`. -/
def resolveLangCode (detectedLanguage : String) : String :=
  match SUPPORTED_LANGUAGES.find?
      (fun e => lowerStr e.2 == lowerStr detectedLanguage) with
  | some e => e.1
  | none => "unknown"

/-- The success body of `app.post('/api/detect-language')` (timestamp
omitted). -/
structure DetectSuccess where
  detectedLanguage : String
  languageCode : String
  provider : ProviderId
  model : String
deriving DecidableEq, Repr

/-- `app.post('/api/detect-language')` of `server.js`.  Validation checks
only presence of provider/model/text and provider availability — the model
id is never checked against `AVAILABLE_MODELS`.  Only openai, anthropic,
deepseek and perplexity have dispatch branches; for any other provider
`detectedLanguage` keeps its initial `''` and no outbound call is made. -/
def detectHandler (cl : Clients) (o : Oracle) (p : ProviderId)
    (model text : String) :
    Except (Nat × String) DetectSuccess × List SentCall :=
  if model = "" ∨ text = "" then
    (.error (400, "Missing required parameters"), [])
  else if isProviderAvailable cl p = false then
    (.error (400, "Provider " ++ providerName p ++ " is not available"), [])
  else
    match p with
    | .openai | .anthropic | .deepseek | .perplexity =>
        let call : SentCall := ⟨p, [⟨"user", detectionPrompt text⟩]⟩
        if o.ok then
          match detectExtract p o.content with
          | .ok d => (.ok ⟨d, resolveLangCode d, p, model⟩, [call])
          | .error e => (.error (500, e), [call])
        else (.error (500, chatFailMessage p o.errText), [call])
    | _ => (.ok ⟨"", resolveLangCode "", p, model⟩, [])

/-- Outcome of the translator UI's `triggerTranslation`
(`translate-ui.js`): either nothing happens because a translation is in
flight, or a validation error is shown and no request is dispatched, or a
`translateRequest` event carrying the fields is dispatched. -/
inductive TriggerOutcome
  | busy
  | rejected (msg : String)
  | dispatched (text sourceLang targetLang : String)
deriving DecidableEq, Repr

/-- `triggerTranslation` of `translate-ui.js`: the caller-side validation
run before any translate request leaves the browser.  It rejects blank text
(`!text.trim()`) and equal source/target languages
(`sourceLang === targetLang && sourceLang !== 'auto'`) before dispatching
the `translateRequest` event. -/
def triggerTranslation (isTranslating : Bool)
    (text sourceLang targetLang : String) : TriggerOutcome :=
  if isTranslating then .busy
  else if jsTrim text = "" then .rejected "Please enter text to translate"
  else if sourceLang = targetLang ∧ sourceLang ≠ "auto" then
    .rejected "Source and target languages cannot be the same"
  else .dispatched text sourceLang targetLang

/-- Spec-side description of the quote stripping (claim C10): remove at
most one leading quote character. -/
def stripOneLeading (l : List Char) : List Char :=
  match l with
  | [] => []
  | c :: t => if c = '"' ∨ c = '\'' then t else c :: t

/-- Spec-side description of the quote stripping (claim C10): remove at
most one trailing quote character. -/
def stripOneTrailing : List Char → List Char
  | [] => []
  | [c] => if c = '"' ∨ c = '\'' then [] else [c]
  | c :: rest => c :: stripOneTrailing rest

/-- Spec-side description of the quote stripping as a whole: at most one
leading and at most one trailing quote character removed, everything else
unchanged. -/
def specStripQuotes (s : String) : String :=
  ⟨stripOneTrailing (stripOneLeading s.data)⟩

/-- `needle` occurs contiguously inside `hay`. -/
def occursIn (needle hay : String) : Prop :=
  ∃ pre suf, hay.data = pre ++ needle.data ++ suf

/-- Executable contiguous-occurrence test on character lists. -/
def isSegmentOf (needle : List Char) : List Char → Bool
  | [] => needle.isEmpty
  | c :: t => needle.isPrefixOf (c :: t) || isSegmentOf needle t

/-- The fixed skeleton of the auto-detect translation instruction: the
prompt text with the interpolated target language and input text removed. -/
def autoPromptSkeleton : String :=
  "Translate the following text to . Only provide the translation, no explanations:\n\n\"\""

/-- `find?` over the model catalog returns something: the model id is in the
provider's catalog. -/
def modelInCatalog (p : ProviderId) (model : String) : Bool :=
  ((AVAILABLE_MODELS p).find? (fun e => e.1 == model)).isSome

/-- A `Clients` value with every credential configured. -/
def allClients : Clients := ⟨true, true, true, true, true, true, true⟩

/-- A successful upstream reply carrying the text `"Hola, mundo"`. -/
def okOracle : Oracle := ⟨true, some "Hola, mundo", ""⟩

/-- A 2xx upstream reply whose body lacks the expected text field. -/
def emptyOracle : Oracle := ⟨true, none, ""⟩

/-- `Except` success test (does not inspect the payload). -/
def exceptOk {ε α : Type} : Except ε α → Bool
  | .ok _ => true
  | .error _ => false

theorem round_nonneg_rat {q : ℚ} (h : 0 ≤ q) : (0 : ℤ) ≤ round q := by
  rw [round_eq]
  exact Int.le_floor.mpr (by push_cast; linarith)

theorem roundTo6_nonneg {q : ℚ} (h : 0 ≤ q) : 0 ≤ roundTo6 q := by
  unfold roundTo6
  apply div_nonneg _ (by norm_num)
  exact_mod_cast round_nonneg_rat (by positivity)

theorem costPerToken_nonneg (model : String) : 0 ≤ costPerToken model := by
  unfold costPerToken
  cases h : costPerTokenTable.find? (fun e => e.1 == model) with
  | none => norm_num
  | some e =>
      have he := List.mem_of_find?_eq_some h
      unfold costPerTokenTable at he
      fin_cases he <;> norm_num

theorem calculateCost_nonneg (tokens : Nat) (model : String) :
    0 ≤ calculateCost tokens model := by
  unfold calculateCost
  exact mul_nonneg (by positivity) (costPerToken_nonneg model)

theorem chatValidate_none {cl : Clients} {p : ProviderId} {model message : String}
    (hm : model ≠ "") (hmsg : message ≠ "")
    (hav : isProviderAvailable cl p = true)
    (hmod : modelInCatalog p model = true) :
    chatValidate cl p model message = none := by
  obtain ⟨e, he⟩ := Option.isSome_iff_exists.mp hmod
  simp [chatValidate, hm, hmsg, hav, he]

theorem translateValidate_none {cl : Clients} {p : ProviderId}
    {model text targetLang : String}
    (hm : model ≠ "") (ht : text ≠ "") (hg : targetLang ≠ "")
    (hav : isProviderAvailable cl p = true)
    (hmod : modelInCatalog p model = true) :
    translateValidate cl p model text targetLang = none := by
  obtain ⟨e, he⟩ := Option.isSome_iff_exists.mp hmod
  simp [translateValidate, hm, ht, hg, hav, he]

theorem roleFilter_length (l : List ChatTurn) :
    (l.filter (fun m => m.role != "system")).length
      + (l.filter (fun m => m.role == "system")).length = l.length := by
  induction l with
  | nil => rfl
  | cons a t ih =>
      cases h : a.role == "system" <;>
        simp [List.filter_cons, h, bne] at ih ⊢ <;> omega

/-- C7: `detectLanguage` resolves the language code by case-insensitive
match of the model's answer against the Language Directory's English
names — `"Spanish"` (any capitalization) resolves to `"es"` — and an
answer matching no entry, such as `"Klingon"`, resolves to the sentinel
`"unknown"` rather than an error: the resolution always returns either the
code of a directory entry whose lowercased name equals the lowercased
answer, or `"unknown"` exactly when no entry matches. -/
theorem claim7_language_code_resolution :
    resolveLangCode "Spanish" = "es"
    ∧ resolveLangCode "spanish" = "es"
    ∧ resolveLangCode "SPANISH" = "es"
    ∧ resolveLangCode "Klingon" = "unknown"
    ∧ ∀ answer : String,
        (∃ e, e ∈ SUPPORTED_LANGUAGES ∧ lowerStr e.2 = lowerStr answer
          ∧ resolveLangCode answer = e.1)
        ∨ (resolveLangCode answer = "unknown"
          ∧ ∀ e ∈ SUPPORTED_LANGUAGES, lowerStr e.2 ≠ lowerStr answer) := by
  refine ⟨by decide, by decide, by decide, by decide, fun answer => ?_⟩
  cases h : SUPPORTED_LANGUAGES.find?
      (fun e => lowerStr e.2 == lowerStr answer) with
  | some e =>
      left
      refine ⟨e, List.mem_of_find?_eq_some h, ?_, ?_⟩
      · have := List.find?_some h
        simpa using this
      · simp [resolveLangCode, h]
  | none =>
      right
      refine ⟨by simp [resolveLangCode, h], fun e he => ?_⟩
      have := List.find?_eq_none.mp h e he
      simpa using this

/-- C9: `detectLanguage` never validates the model id against the
provider's catalog (both conjuncts hold for an arbitrary non-empty model
string, including ids in no catalog), and for every available provider
outside {openai, anthropic, deepseek, perplexity} — i.e. microsoft, adobe
or canva — it performs no outbound call (the issued-call list is empty) and
returns a success whose `detectedLanguage` is `""` and whose `languageCode`
is `"unknown"`.  The second conjunct shows the unvalidated model id is also
forwarded unchecked on a dispatching branch (openai). -/
theorem claim9_detect_no_model_validation :
    (∀ (cl : Clients) (o : Oracle) (p : ProviderId) (model text : String),
      model ≠ "" → text ≠ "" →
      (p = .microsoft ∨ p = .adobe ∨ p = .canva) →
      isProviderAvailable cl p = true →
      detectHandler cl o p model text = (.ok ⟨"", "unknown", p, model⟩, []))
    ∧ (∀ (cl : Clients) (o : Oracle) (model text ans : String),
      model ≠ "" → text ≠ "" → isProviderAvailable cl .openai = true →
      o.ok = true → o.content = some ans →
      detectHandler cl o .openai model text
        = (.ok ⟨jsTrim ans, resolveLangCode (jsTrim ans), .openai, model⟩,
           [⟨.openai, [⟨"user", detectionPrompt text⟩]⟩])) := by
  constructor
  · intro cl o p model text hm ht hp hav
    have hunk : resolveLangCode "" = "unknown" := by decide
    rcases hp with h | h | h <;> subst h <;>
      simp [detectHandler, hm, ht, hav, hunk]
  · intro cl o model text ans hm ht hav hok hc
    simp [detectHandler, hm, ht, hav, hok, hc, detectExtract]

/-- Witness for C9 at a concrete input: provider adobe with a model id that
is in no provider's catalog still succeeds with an empty detected language,
the sentinel code, and no outbound call. -/
theorem claim9_witness :
    detectHandler allClients okOracle .adobe "not-a-model" "hola"
      = (.ok ⟨"", "unknown", .adobe, "not-a-model"⟩, []) :=
  claim9_detect_no_model_validation.1 allClients okOracle .adobe
    "not-a-model" "hola" (by decide) (by decide) (.inr (.inl rfl)) rfl

/-- C4: the caller-side validation the spec names lives in the translator
UI's `triggerTranslation` (`translate-ui.js`): whenever the selected source
language equals the target language and is not `"auto"`, no
`translateRequest` is ever dispatched, and in the reachable state (not
mid-translation, non-blank text) the outcome is exactly the
same-languages validation error. -/
theorem claim4_same_language_rejected :
    ∀ (isTranslating : Bool) (text lang : String), lang ≠ "auto" →
      (∀ t s g, triggerTranslation isTranslating text lang lang
        ≠ .dispatched t s g)
      ∧ (isTranslating = false → jsTrim text ≠ "" →
        triggerTranslation false text lang lang
          = .rejected "Source and target languages cannot be the same") := by
  intro isTranslating text lang hlang
  constructor
  · intro t s g
    unfold triggerTranslation
    split
    · simp
    · split
      · simp
      · rw [if_pos ⟨rfl, hlang⟩]
        simp
  · intro _ htext
    unfold triggerTranslation
    rw [if_neg (by simp), if_neg htext, if_pos ⟨rfl, hlang⟩]

/-- Witness for C4 at a concrete input: English to English with non-blank
text is rejected with the same-languages error and nothing is dispatched. -/
theorem claim4_witness :
    triggerTranslation false "hello" "en" "en"
      = .rejected "Source and target languages cannot be the same" :=
  (claim4_same_language_rejected false "hello" "en" (by decide)).2 rfl
    (by decide)

/-- Counterexample to C5: the server-side validation does not trim.  With
the whitespace-only message `" "` the chat handler validates successfully,
issues the outbound provider call (the issued-call list is exactly that
call) and returns success; likewise the translate handler with
whitespace-only text issues its call.  So a whitespace-only message/text is
not rejected before the network call. -/
theorem claim5_counterexample :
    (chatHandler allClients okOracle .openai "gpt-4" " " []).2
        = [⟨.openai, [⟨"user", " "⟩]⟩]
    ∧ exceptOk (chatHandler allClients okOracle .openai "gpt-4" " " []).1
        = true
    ∧ (translateHandler allClients okOracle .openai "gpt-4" " "
        (some "en") "fr").2.length = 1
    ∧ exceptOk (translateHandler allClients okOracle .openai "gpt-4" " "
        (some "en") "fr").1 = true := by
  refine ⟨rfl, rfl, rfl, rfl⟩

/-- C5 as amended: the validation of both handlers compares the raw string
against the empty string (JavaScript falsiness) without trimming, so
exactly the empty message (chat) or empty text (translate) fails with the
400 `ValidationError` before any network call — the issued-call list is
empty — while a whitespace-only string passes validation (see the
counterexample). -/
theorem claim5_empty_input_rejected :
    (∀ (cl : Clients) (o : Oracle) (p : ProviderId) (model : String)
        (history : List ChatTurn),
      chatHandler cl o p model "" history
        = (.error (400, "Missing required parameters"), []))
    ∧ (∀ (cl : Clients) (o : Oracle) (p : ProviderId) (model : String)
        (sourceLang : Option String) (targetLang : String),
      translateHandler cl o p model "" sourceLang targetLang
        = (.error (400, "Missing required parameters"), [])) := by
  constructor
  · intro cl o p model history
    simp [chatHandler, chatValidate]
  · intro cl o p model sourceLang targetLang
    simp [translateHandler, translateValidate]

/-- Counterexample to C2: with a 15-turn history consisting of system-role
turns, the anthropic branch forwards only the new user turn (1 message,
not 11), because it filters system-role turns out of the sliced history;
the openai branch forwards 11.  So the count is not 11 regardless of
provider. -/
theorem claim2_counterexample :
    (List.replicate 15 (⟨"system", "x"⟩ : ChatTurn)).length = 15
    ∧ buildChatMessages .anthropic
        (List.replicate 15 (⟨"system", "x"⟩ : ChatTurn)) "hi"
        = some [⟨"user", "hi"⟩]
    ∧ (buildChatMessages .openai
        (List.replicate 15 (⟨"system", "x"⟩ : ChatTurn)) "hi").map
        List.length = some 11 := by
  refine ⟨by decide, by decide, by decide⟩

/-- C2 as amended: for a 15-turn history, openai, deepseek, perplexity and
microsoft forward exactly the last 10 turns (relative order preserved)
followed by the new user turn — 11 messages.  The anthropic branch first
removes system-role turns from those last 10, so it forwards 11 minus the
number of system turns among the last 10.  For adobe and canva no message
sequence is built at all (dispatch throws `Unsupported provider`). -/
theorem claim2_history_truncation :
    ∀ (history : List ChatTurn) (message : String), history.length = 15 →
      (∀ p : ProviderId,
        (p = .openai ∨ p = .deepseek ∨ p = .perplexity ∨ p = .microsoft) →
        buildChatMessages p history message
          = some (history.drop 5 ++ [⟨"user", message⟩])
        ∧ ∀ msgs, buildChatMessages p history message = some msgs →
            msgs.length = 11)
      ∧ (∃ msgs, buildChatMessages .anthropic history message = some msgs
          ∧ msgs = (history.drop 5).filter (fun m => m.role != "system")
              ++ [⟨"user", message⟩]
          ∧ msgs.length
              + ((history.drop 5).filter (fun m => m.role == "system")).length
              = 11)
      ∧ buildChatMessages .adobe history message = none
      ∧ buildChatMessages .canva history message = none := by
  intro history message h15
  have hlast : lastTen history = history.drop 5 := by
    unfold lastTen
    rw [h15]
  have hdlen : (history.drop 5).length = 10 := by
    rw [List.length_drop, h15]
  refine ⟨?_, ?_, rfl, rfl⟩
  · intro p hp
    have hb : buildChatMessages p history message
        = some (history.drop 5 ++ [⟨"user", message⟩]) := by
      rcases hp with h | h | h | h <;> subst h <;>
        simp [buildChatMessages, hlast]
    refine ⟨hb, fun msgs hmsgs => ?_⟩
    rw [hb] at hmsgs
    obtain rfl := Option.some.injEq _ _ ▸ hmsgs.symm
    simp [hdlen]
  · refine ⟨_, by simp [buildChatMessages, hlast], rfl, ?_⟩
    have := roleFilter_length (history.drop 5)
    simp only [List.length_append, List.length_singleton]
    omega

/-- Witness for C2 at a concrete input: a 15-turn user-role history on the
openai branch yields the last 10 turns plus the new user turn. -/
theorem claim2_witness :
    buildChatMessages .openai
        (List.replicate 15 (⟨"user", "m"⟩ : ChatTurn)) "hi"
      = some ((List.replicate 15 (⟨"user", "m"⟩ : ChatTurn)).drop 5
          ++ [⟨"user", "hi"⟩]) :=
  ((claim2_history_truncation (List.replicate 15 ⟨"user", "m"⟩) "hi"
    (by decide)).1 .openai (Or.inl rfl)).1

/-- C8: every successful chat response's displayed cost equals the token
estimate times the per-model rate from the cost table, rounded to 6
decimal places; the rate falls back to the constant 2e-6 for any model id
absent from the table; and 1000 tokens at `"gpt-4"` (rate 3e-5) always
yields 0.03. -/
theorem claim8_cost_estimate :
    (∀ (cl : Clients) (o : Oracle) (p : ProviderId) (model message : String)
        (history : List ChatTurn) (r : ChatSuccess) (calls : List SentCall),
      chatHandler cl o p model message history = (.ok r, calls) →
      r.cost = roundTo6 ((r.tokensUsed : ℚ) * costPerToken model))
    ∧ (∀ model : String,
      costPerTokenTable.find? (fun e => e.1 == model) = none →
      costPerToken model = 2 / 1000000)
    ∧ roundTo6 (calculateCost 1000 "gpt-4") = 3 / 100 := by
  refine ⟨?_, ?_, ?_⟩
  · intro cl o p model message history r calls h
    unfold chatHandler at h
    cases hv : chatValidate cl p model message with
    | some err => rw [hv] at h; simp at h
    | none =>
        rw [hv] at h
        cases hd : chatDispatch o p message history with
        | mk res calls' =>
            rw [hd] at h
            cases res with
            | error e => simp at h
            | ok text =>
                simp only [Prod.mk.injEq, Except.ok.injEq] at h
                obtain ⟨hr, -⟩ := h
                subst hr
                rfl
  · intro model h
    unfold costPerToken
    rw [h]
  · have hc : costPerToken "gpt-4" = 3 / 100000 := rfl
    unfold calculateCost roundTo6
    rw [hc]
    norm_num [round_eq]

/-- Witness for C8 at a concrete input: `chat(openai, gpt-4, "hello", [])`
against an upstream answering `"Hola, mundo"` estimates 4 tokens and the
success body's cost field equals the rounded 4 × rate product. -/
theorem claim8_witness :
    (⟨"Hola, mundo", .openai, "gpt-4", 4,
        roundTo6 (calculateCost 4 "gpt-4")⟩ : ChatSuccess).cost
      = roundTo6 ((((⟨"Hola, mundo", .openai, "gpt-4", 4,
          roundTo6 (calculateCost 4 "gpt-4")⟩ : ChatSuccess).tokensUsed : ℚ))
          * costPerToken "gpt-4") :=
  claim8_cost_estimate.1 allClients okOracle .openai "gpt-4" "hello" []
    ⟨"Hola, mundo", .openai, "gpt-4", 4, roundTo6 (calculateCost 4 "gpt-4")⟩
    [⟨.openai, [⟨"user", "hello"⟩]⟩] rfl

theorem charsPrefix_iff (l₁ : List Char) :
    ∀ l₂, l₁.isPrefixOf l₂ = true ↔ ∃ t, l₂ = l₁ ++ t := by
  induction l₁ with
  | nil => intro l₂; simp [List.isPrefixOf]
  | cons a l₁ ih =>
      intro l₂
      cases l₂ with
      | nil => simp [List.isPrefixOf]
      | cons b l₂ =>
          simp only [List.isPrefixOf, Bool.and_eq_true, beq_iff_eq, ih,
            List.cons_append, List.cons.injEq]
          constructor
          · rintro ⟨rfl, t, rfl⟩
            exact ⟨t, rfl, rfl⟩
          · rintro ⟨t, rfl, rfl⟩
            exact ⟨rfl, t, rfl⟩

/-- `isSegmentOf` is exactly contiguous occurrence. -/
theorem isSegmentOf_iff (needle : List Char) :
    ∀ hay, isSegmentOf needle hay = true
      ↔ ∃ pre suf, hay = pre ++ needle ++ suf := by
  intro hay
  induction hay with
  | nil =>
      simp only [isSegmentOf, List.isEmpty_iff]
      constructor
      · rintro rfl
        exact ⟨[], [], rfl⟩
      · rintro ⟨pre, suf, h⟩
        rcases List.append_eq_nil.mp (List.append_eq_nil.mp h.symm).1 with ⟨-, h2⟩
        exact h2
  | cons c t ih =>
      simp only [isSegmentOf, Bool.or_eq_true, charsPrefix_iff, ih]
      constructor
      · rintro (⟨s, hs⟩ | ⟨pre, suf, h⟩)
        · exact ⟨[], s, by simpa using hs⟩
        · exact ⟨c :: pre, suf, by simp [h]⟩
      · rintro ⟨pre, suf, h⟩
        cases pre with
        | nil => exact Or.inl ⟨suf, by simpa using h⟩
        | cons p ps =>
            right
            rw [List.cons_append, List.cons_append] at h
            injection h with h1 h2
            exact ⟨ps, suf, h2⟩

/-- C6: for a translate request with `sourceLang = "auto"`, the built
instruction equals the fixed auto template; hence it contains the resolved
target language name and the original text verbatim in double quotes, and
the fixed skeleton of the template (the instruction text minus the two
interpolations) contains no language name of the directory as a segment —
the instruction names no source language; the only language name it
injects is the resolved target. -/
theorem claim6_auto_prompt :
    ∀ text targetLang : String,
      translationPrompt (some "auto") text targetLang
        = "Translate the following text to " ++ resolveTargetLanguage targetLang
          ++ ". Only provide the translation, no explanations:\n\n"
          ++ ("\"" ++ text ++ "\"")
      ∧ occursIn (resolveTargetLanguage targetLang)
          (translationPrompt (some "auto") text targetLang)
      ∧ occursIn ("\"" ++ text ++ "\"")
          (translationPrompt (some "auto") text targetLang)
      ∧ SUPPORTED_LANGUAGES.all
          (fun e => !(isSegmentOf e.2.data autoPromptSkeleton.data)) = true := by
  intro text targetLang
  have hp : translationPrompt (some "auto") text targetLang
      = "Translate the following text to " ++ resolveTargetLanguage targetLang
        ++ ". Only provide the translation, no explanations:\n\n"
        ++ ("\"" ++ text ++ "\"") := by
    simp [translationPrompt]
  refine ⟨hp, ?_, ?_, by decide⟩
  · refine ⟨("Translate the following text to ").data,
      (". Only provide the translation, no explanations:\n\n"
        ++ ("\"" ++ text ++ "\"")).data, ?_⟩
    rw [hp]
    simp [String.data_append, List.append_assoc]
  · refine ⟨("Translate the following text to " ++ resolveTargetLanguage targetLang
      ++ ". Only provide the translation, no explanations:\n\n").data, [], ?_⟩
    rw [hp]
    simp [String.data_append, List.append_assoc]

/-- Counterexample to C1: canva is available (credential configured) and
`"design"` is in its catalog, yet `chat(canva, design, "hello", [])` falls
into the dispatch chain's final `else` and fails with the 500
`Unsupported provider` error instead of returning a successful response;
no outbound call is made. -/
theorem claim1_counterexample :
    isProviderAvailable allClients .canva = true
    ∧ modelInCatalog .canva "design" = true
    ∧ chatHandler allClients okOracle .canva "design" "hello" []
        = (.error (500, "Unsupported provider: canva"), []) :=
  ⟨rfl, rfl, rfl⟩

/-- C1 as amended: for the five providers that have a dispatch branch
(openai, anthropic, deepseek, perplexity, microsoft), when the provider is
available, the model is in its catalog and the upstream call succeeds with
a non-empty text field, `chat(P, M, "hello", [])` returns a successful
response with non-empty text, at least 1 estimated token and a
non-negative cost.  For adobe and canva the dispatch always fails with
`Unsupported provider` (see the counterexample). -/
theorem claim1_chat_success :
    ∀ (cl : Clients) (o : Oracle) (s : String) (p : ProviderId)
      (model : String),
      o.ok = true → o.content = some s → s ≠ "" →
      (p = .openai ∨ p = .anthropic ∨ p = .deepseek ∨ p = .perplexity
        ∨ p = .microsoft) →
      isProviderAvailable cl p = true → model ≠ "" →
      modelInCatalog p model = true →
      ∃ r calls, chatHandler cl o p model "hello" [] = (.ok r, calls)
        ∧ r.response ≠ "" ∧ 1 ≤ r.tokensUsed ∧ 0 ≤ r.cost := by
  intro cl o s p model hok hc hs hp hav hm hmod
  have hv := @chatValidate_none cl p model "hello" hm (by decide) hav hmod
  have key : chatHandler cl o p model "hello" []
      = (.ok ⟨s, p, model, estimateTokens ("hello" ++ s),
          roundTo6 (calculateCost (estimateTokens ("hello" ++ s)) model)⟩,
         [⟨p, [⟨"user", "hello"⟩]⟩]) := by
    rcases hp with rfl | rfl | rfl | rfl | rfl <;>
      simp [chatHandler, hv, chatDispatch, buildChatMessages, lastTen, hok,
        hc, chatExtract, jsOr, hs]
  refine ⟨_, _, key, hs, ?_, ?_⟩
  · show 1 ≤ estimateTokens ("hello" ++ s)
    unfold estimateTokens
    rw [String.length_append]
    have h5 : ("hello" : String).length = 5 := rfl
    omega
  · exact roundTo6_nonneg (calculateCost_nonneg _ _)

/-- Witness for C1 at a concrete input: deepseek with its catalog model
`"deepseek-chat"` and an upstream answering `"Hola, mundo"`. -/
theorem claim1_witness :
    ∃ r calls,
      chatHandler allClients okOracle .deepseek "deepseek-chat" "hello" []
        = (.ok r, calls)
      ∧ r.response ≠ "" ∧ 1 ≤ r.tokensUsed ∧ 0 ≤ r.cost :=
  claim1_chat_success allClients okOracle "Hola, mundo" .deepseek
    "deepseek-chat" rfl rfl (by decide) (Or.inr (Or.inr (Or.inl rfl))) rfl
    (by decide) rfl

/-- Counterexample to C3: for openai, a 2xx upstream response whose body
lacks the expected text field (e.g. an empty `choices` array) does not
yield a placeholder — the unchecked member access throws and the call
fails with a 500 error. -/
theorem claim3_counterexample :
    chatHandler allClients emptyOracle .openai "gpt-4" "hello" []
      = (.error (500, "TypeError: cannot read properties of undefined"),
         [⟨.openai, [⟨"user", "hello"⟩]⟩]) := rfl

/-- C3 as amended: the placeholder substitution exists only on the three
raw-HTTP chat branches — deepseek (`"Deepseek response unavailable"`),
perplexity (`"Perplexity response unavailable"`) and microsoft (whose
placeholder reads `"Azure response unavailable"`, not
`"microsoft response unavailable"`); there a missing text field still
yields a successful response carrying the placeholder.  On the SDK
branches (openai, anthropic) a missing text field makes the call fail
with a 500 error (see the counterexample). -/
theorem claim3_placeholder_substitution :
    ∀ (cl : Clients) (o : Oracle) (history : List ChatTurn) (msg : String),
      o.ok = true → o.content = none → msg ≠ "" →
      (∀ model, model ≠ "" → isProviderAvailable cl .deepseek = true →
        modelInCatalog .deepseek model = true →
        ∃ r calls, chatHandler cl o .deepseek model msg history = (.ok r, calls)
          ∧ r.response = "Deepseek response unavailable")
      ∧ (∀ model, model ≠ "" → isProviderAvailable cl .perplexity = true →
        modelInCatalog .perplexity model = true →
        ∃ r calls, chatHandler cl o .perplexity model msg history
          = (.ok r, calls)
          ∧ r.response = "Perplexity response unavailable")
      ∧ (∀ model, model ≠ "" → isProviderAvailable cl .microsoft = true →
        modelInCatalog .microsoft model = true →
        ∃ r calls, chatHandler cl o .microsoft model msg history
          = (.ok r, calls)
          ∧ r.response = "Azure response unavailable")
      ∧ (∀ model, model ≠ "" → isProviderAvailable cl .openai = true →
        modelInCatalog .openai model = true →
        ∃ calls, chatHandler cl o .openai model msg history
          = (.error (500, "TypeError: cannot read properties of undefined"),
             calls))
      ∧ (∀ model, model ≠ "" → isProviderAvailable cl .anthropic = true →
        modelInCatalog .anthropic model = true →
        ∃ calls, chatHandler cl o .anthropic model msg history
          = (.error (500, "TypeError: cannot read properties of undefined"),
             calls)) := by
  intro cl o history msg hok hc hmsg
  refine ⟨?_, ?_, ?_, ?_, ?_⟩ <;> intro model hm hav hmod <;>
    have hv := chatValidate_none hm hmsg hav hmod
  · have key : chatHandler cl o .deepseek model msg history
        = (.ok ⟨"Deepseek response unavailable", .deepseek, model,
            estimateTokens (msg ++ "Deepseek response unavailable"),
            roundTo6 (calculateCost
              (estimateTokens (msg ++ "Deepseek response unavailable"))
              model)⟩,
           [⟨.deepseek, lastTen history ++ [⟨"user", msg⟩]⟩]) := by
      simp [chatHandler, hv, chatDispatch, buildChatMessages, hok, hc,
        chatExtract, jsOr]
    exact ⟨_, _, key, rfl⟩
  · have key : chatHandler cl o .perplexity model msg history
        = (.ok ⟨"Perplexity response unavailable", .perplexity, model,
            estimateTokens (msg ++ "Perplexity response unavailable"),
            roundTo6 (calculateCost
              (estimateTokens (msg ++ "Perplexity response unavailable"))
              model)⟩,
           [⟨.perplexity, lastTen history ++ [⟨"user", msg⟩]⟩]) := by
      simp [chatHandler, hv, chatDispatch, buildChatMessages, hok, hc,
        chatExtract, jsOr]
    exact ⟨_, _, key, rfl⟩
  · have key : chatHandler cl o .microsoft model msg history
        = (.ok ⟨"Azure response unavailable", .microsoft, model,
            estimateTokens (msg ++ "Azure response unavailable"),
            roundTo6 (calculateCost
              (estimateTokens (msg ++ "Azure response unavailable")) model)⟩,
           [⟨.microsoft, lastTen history ++ [⟨"user", msg⟩]⟩]) := by
      simp [chatHandler, hv, chatDispatch, buildChatMessages, hok, hc,
        chatExtract, jsOr]
    exact ⟨_, _, key, rfl⟩
  · refine ⟨[⟨.openai, lastTen history ++ [⟨"user", msg⟩]⟩], ?_⟩
    simp [chatHandler, hv, chatDispatch, buildChatMessages, hok, hc,
      chatExtract]
  · refine ⟨[⟨.anthropic, (lastTen history).filter (fun m => m.role != "system")
      ++ [⟨"user", msg⟩]⟩], ?_⟩
    simp [chatHandler, hv, chatDispatch, buildChatMessages, hok, hc,
      chatExtract]

/-- Witness for C3 at a concrete input: deepseek with a missing text field
succeeds with its placeholder. -/
theorem claim3_witness :
    ∃ r calls,
      chatHandler allClients emptyOracle .deepseek "deepseek-chat" "hello" []
        = (.ok r, calls)
      ∧ r.response = "Deepseek response unavailable" :=
  (claim3_placeholder_substitution allClients emptyOracle [] "hello" rfl rfl
    (by decide)).1 "deepseek-chat" (by decide) rfl rfl

theorem stripScan_cons (len i : Nat) (c : Char) (rest : List Char) :
    stripScan len i (c :: rest)
      = if (i = 0 ∧ (c = '"' ∨ c = '\''))
          ∨ ((c = '"' ∨ c = '\'') ∧ i + 1 = len)
        then stripScan len (i + 1) rest
        else c :: stripScan len (i + 1) rest := rfl

theorem stripScan_tail (l : List Char) :
    ∀ i len, 1 ≤ i → i + l.length = len →
      stripScan len i l = stripOneTrailing l := by
  induction l with
  | nil => intro i len _ _; rfl
  | cons c rest ih =>
      intro i len hi hlen
      have hne : ¬ i = 0 := by omega
      cases rest with
      | nil =>
          have h2 : i + 1 = len := by simpa using hlen
          by_cases hq : c = '"' ∨ c = '\''
          · rw [stripScan_cons, if_pos (Or.inr ⟨hq, h2⟩)]
            simp only [stripOneTrailing]
            rw [if_pos hq]
            rfl
          · have hcond : ¬ ((i = 0 ∧ (c = '"' ∨ c = '\''))
                ∨ ((c = '"' ∨ c = '\'') ∧ i + 1 = len)) := by
              rintro (⟨h0, -⟩ | ⟨hq', -⟩)
              · exact hne h0
              · exact hq hq'
            rw [stripScan_cons, if_neg hcond]
            simp only [stripOneTrailing]
            rw [if_neg hq]
            rfl
      | cons d t =>
          have hlt : ¬ i + 1 = len := by
            simp only [List.length_cons] at hlen
            omega
          have hcond : ¬ ((i = 0 ∧ (c = '"' ∨ c = '\''))
              ∨ ((c = '"' ∨ c = '\'') ∧ i + 1 = len)) := by
            rintro (⟨h0, -⟩ | ⟨-, h1⟩)
            · exact hne h0
            · exact hlt h1
          have hih := ih (i + 1) len (by omega)
            (by simp only [List.length_cons] at hlen ⊢; omega)
          rw [stripScan_cons, if_neg hcond, hih]
          rfl

/-- C10: the translation post-processing
`replace(/^["']|["']$/g, '')` — modelled faithfully as the regex engine's
left-to-right scan `jsReplaceQuotes` — coincides, for every string, with
the spec's description `specStripQuotes`: at most one leading quote
character (`"` or `'`) and at most one trailing quote character are
removed, each when present, and all other characters are returned
unchanged.  The second conjunct ties this to the translate handler: every
successful translate response's `translatedText` is the stripped form of
the raw extracted string. -/
theorem claim10_quote_stripping :
    (∀ s : String, jsReplaceQuotes s = specStripQuotes s)
    ∧ (∀ (cl : Clients) (o : Oracle) (p : ProviderId) (model text : String)
        (sourceLang : Option String) (targetLang : String)
        (r : TranslateSuccess) (calls : List SentCall),
      translateHandler cl o p model text sourceLang targetLang
        = (.ok r, calls) →
      ∃ raw, r.translatedText = specStripQuotes raw) := by
  have main : ∀ s : String, jsReplaceQuotes s = specStripQuotes s := by
    intro s
    unfold jsReplaceQuotes specStripQuotes
    cases hd : s.data with
    | nil => rfl
    | cons c rest =>
        by_cases hq : c = '"' ∨ c = '\''
        · rw [stripScan_cons, if_pos (Or.inl ⟨rfl, hq⟩),
            stripScan_tail rest 1 (c :: rest).length (by omega)
              (by simp only [List.length_cons]; omega)]
          simp only [stripOneLeading]
          rw [if_pos hq]
        · have hcond : ¬ ((0 = 0 ∧ (c = '"' ∨ c = '\''))
              ∨ ((c = '"' ∨ c = '\'') ∧ 0 + 1 = (c :: rest).length)) := by
            rintro (⟨-, h⟩ | ⟨h, -⟩) <;> exact hq h
          rw [stripScan_cons, if_neg hcond,
            stripScan_tail rest 1 (c :: rest).length (by omega)
              (by simp only [List.length_cons]; omega)]
          simp only [stripOneLeading]
          rw [if_neg hq]
          cases rest with
          | nil =>
              simp only [stripOneTrailing]
              rw [if_neg hq]
          | cons d t => rfl
  refine ⟨main, ?_⟩
  intro cl o p model text sourceLang targetLang r calls h
  unfold translateHandler at h
  cases hv : translateValidate cl p model text targetLang with
  | some err => rw [hv] at h; simp at h
  | none =>
      rw [hv] at h
      cases htd : translateDispatch o p
          (translationPrompt sourceLang text targetLang) with
      | mk res calls' =>
          rw [htd] at h
          cases res with
          | error e => simp at h
          | ok raw =>
              simp only [Prod.mk.injEq, Except.ok.injEq] at h
              obtain ⟨hr, -⟩ := h
              subst hr
              exact ⟨raw, main raw⟩

end MultiLLM
